import Mathlib

/-!
Shallow embedding of the wiredwise repository (class DigitalSolutionsApp in
src/js/script.js, and the unnamed variant src/unnamed/part_000).

Modelling conventions:
- JavaScript numbers are modelled as exact rationals; Math.ceil and Math.floor
  become the integer ceiling and floor on the rationals.
- DOM state touched by a handler is an explicit record; the hidden CSS class of
  an element is a Bool field (true = the element carries the hidden class).
- Event handlers are pure functions from the page state to an updated state
  and/or a trace of externally visible effects, in the order the source
  performs them.  The try/catch wrappers of the source never fire in this
  pure model, so only the non-throwing branch is embedded.
- Non-ASCII characters in the message templates are written with unicode
  escapes; the code points are exactly those of the bytes of the source file.
-/

/- Application constants (this.constants in src/js/script.js). -/

def BASE_COVERAGE : ℚ := 1500

def DEVICE_FACTOR : ℚ := 2

def SERVER_FACTOR_SQFT : ℚ := 5000

def WORKSTATION_FACTOR_SQFT : ℚ := 200

def MIN_AREA : ℚ := 100

def MAX_AREA : ℚ := 100000

def WHATSAPP_NUMBER : String := "254717340777"

/- The record produced by getITFormData in src/js/script.js (field order as in
the object literal there). -/

structure ITFormData where
  fullName : String
  phone : String
  area : ℚ
  buildingFactor : ℚ
  usageFactor : ℚ
  needsCabling : Bool
  needsCCTV : Bool
  needsAccessControl : Bool
  needsTelephony : Bool
  buildingType : String
deriving DecidableEq, Repr

/- The record returned by calculateITNeeds. -/

structure ITResults where
  accessPoints : ℤ
  estimatedDevices : ℤ
  recommendedServers : ℤ
  recommendedWorkstations : ℤ
deriving DecidableEq, Repr

/- calculateITNeeds, src/js/script.js lines 231-241. -/

def calculateITNeeds (data : ITFormData) : ITResults :=
  { accessPoints :=
      max 1 ⌈(data.area * data.buildingFactor * data.usageFactor) / BASE_COVERAGE⌉
    estimatedDevices :=
      max 1 ⌊data.area / 100 * data.usageFactor * DEVICE_FACTOR⌋
    recommendedServers :=
      max 1 ⌈data.area / SERVER_FACTOR_SQFT⌉
    recommendedWorkstations :=
      max 1 ⌈data.area / WORKSTATION_FACTOR_SQFT⌉ }

namespace Part000

/- The unnamed variant src/unnamed/part_000: its getITFormData (lines 201-212)
has no fullName and phone fields; its constants (lines 42-49) carry the same
numeric values as the main file.  Its calculateITNeeds (lines 214-224) returns
a record with the same four fields, so the shared ITResults type is reused. -/

def BASE_COVERAGE : ℚ := 1500

def DEVICE_FACTOR : ℚ := 2

def SERVER_FACTOR_SQFT : ℚ := 5000

def WORKSTATION_FACTOR_SQFT : ℚ := 200

structure ITFormData where
  area : ℚ
  buildingFactor : ℚ
  usageFactor : ℚ
  needsCabling : Bool
  needsCCTV : Bool
  needsAccessControl : Bool
  needsTelephony : Bool
  buildingType : String
deriving DecidableEq, Repr

def calculateITNeeds (data : ITFormData) : ITResults :=
  { accessPoints :=
      max 1 ⌈(data.area * data.buildingFactor * data.usageFactor) / BASE_COVERAGE⌉
    estimatedDevices :=
      max 1 ⌊data.area / 100 * data.usageFactor * DEVICE_FACTOR⌋
    recommendedServers :=
      max 1 ⌈data.area / SERVER_FACTOR_SQFT⌉
    recommendedWorkstations :=
      max 1 ⌈data.area / WORKSTATION_FACTOR_SQFT⌉ }

end Part000

/- Spec-side estimator, written from the formulas of spec.md section 4.2
(computeEstimate): accessPoints = max(1, ceil(area x buildingFactor x
usageFactor / 1500)), estimatedDevices = max(1, floor(area / 100 x usageFactor
x 2)), recommendedServers = max(1, ceil(area / 5000)), recommendedWorkstations
= max(1, ceil(area / 200)). -/

def computeEstimate (area buildingFactor usageFactor : ℚ) : ITResults :=
  { accessPoints := max 1 ⌈area * buildingFactor * usageFactor / 1500⌉
    estimatedDevices := max 1 ⌊area / 100 * usageFactor * 2⌋
    recommendedServers := max 1 ⌈area / 5000⌉
    recommendedWorkstations := max 1 ⌈area / 200⌉ }

/-- C1: for every snapshot with numeric area, buildingFactor and usageFactor,
calculateITNeeds returns exactly the four quantities given by the formulas of
the spec, and each of the four results is at least 1. -/
theorem C1_calculateITNeeds_matches_spec (d : ITFormData) :
    calculateITNeeds d = computeEstimate d.area d.buildingFactor d.usageFactor ∧
    1 ≤ (calculateITNeeds d).accessPoints ∧
    1 ≤ (calculateITNeeds d).estimatedDevices ∧
    1 ≤ (calculateITNeeds d).recommendedServers ∧
    1 ≤ (calculateITNeeds d).recommendedWorkstations := by
  refine ⟨rfl, ?_, ?_, ?_, ?_⟩ <;> exact le_max_left 1 _

/-- C10: the calculateITNeeds of src/js/script.js and the calculateITNeeds of
the unnamed variant src/unnamed/part_000 are extensionally equal: on any pair
of snapshots agreeing on area, buildingFactor and usageFactor they return the
same four quantities. -/
theorem C10_calculateITNeeds_variants_agree (d : ITFormData) (e : Part000.ITFormData)
    (ha : d.area = e.area) (hb : d.buildingFactor = e.buildingFactor)
    (hu : d.usageFactor = e.usageFactor) :
    calculateITNeeds d = Part000.calculateITNeeds e := by
  simp [calculateITNeeds, Part000.calculateITNeeds, ha, hb, hu,
    BASE_COVERAGE, Part000.BASE_COVERAGE, DEVICE_FACTOR, Part000.DEVICE_FACTOR,
    SERVER_FACTOR_SQFT, Part000.SERVER_FACTOR_SQFT,
    WORKSTATION_FACTOR_SQFT, Part000.WORKSTATION_FACTOR_SQFT]

theorem C10_witness :
    calculateITNeeds
      { fullName := "Jo", phone := "0700000000", area := 1200, buildingFactor := 3/2,
        usageFactor := 2, needsCabling := true, needsCCTV := false,
        needsAccessControl := false, needsTelephony := false, buildingType := "Office" } =
    Part000.calculateITNeeds
      { area := 1200, buildingFactor := 3/2, usageFactor := 2, needsCabling := true,
        needsCCTV := false, needsAccessControl := false, needsTelephony := false,
        buildingType := "Office" } :=
  C10_calculateITNeeds_variants_agree _ _ rfl rfl rfl

/- Helper for C3: the composite max(1, ceil(x / c)) is monotone in x for a
positive divisor c. -/

theorem max_one_ceil_div_mono {x y c : ℚ} (hc : 0 < c) (hxy : x ≤ y) :
    max 1 ⌈x / c⌉ ≤ max 1 ⌈y / c⌉ :=
  max_le_max le_rfl (Int.ceil_mono ((div_le_div_iff_of_pos_right hc).mpr hxy))

/-- C3: with buildingFactor and usageFactor held fixed, and areas in
[MIN_AREA, MAX_AREA], accessPoints, recommendedServers and
recommendedWorkstations of calculateITNeeds are monotone non-decreasing in
area. -/
theorem C3_calculateITNeeds_monotone_in_area (d1 d2 : ITFormData)
    (hbf : d1.buildingFactor = d2.buildingFactor)
    (huf : d1.usageFactor = d2.usageFactor)
    (hlo : MIN_AREA ≤ d1.area) (h12 : d1.area ≤ d2.area) (hhi : d2.area ≤ MAX_AREA) :
    (calculateITNeeds d1).accessPoints ≤ (calculateITNeeds d2).accessPoints ∧
    (calculateITNeeds d1).recommendedServers ≤ (calculateITNeeds d2).recommendedServers ∧
    (calculateITNeeds d1).recommendedWorkstations ≤ (calculateITNeeds d2).recommendedWorkstations := by
  have h1pos : (0 : ℚ) < 1500 := by norm_num
  have ha1 : (0 : ℚ) ≤ d1.area := le_trans (by norm_num [MIN_AREA]) hlo
  have ha2 : (0 : ℚ) ≤ d2.area := le_trans ha1 h12
  refine ⟨?_, ?_, ?_⟩
  · show max 1 ⌈(d1.area * d1.buildingFactor * d1.usageFactor) / BASE_COVERAGE⌉ ≤
        max 1 ⌈(d2.area * d2.buildingFactor * d2.usageFactor) / BASE_COVERAGE⌉
    rw [hbf, huf, mul_assoc, mul_assoc]
    rcases le_or_lt 0 (d2.buildingFactor * d2.usageFactor) with hf | hf
    · exact max_one_ceil_div_mono (by norm_num [BASE_COVERAGE])
        (mul_le_mul_of_nonneg_right h12 hf)
    · have hc1 : d1.area * (d2.buildingFactor * d2.usageFactor) ≤ 0 :=
        mul_nonpos_of_nonneg_of_nonpos ha1 hf.le
      have hc2 : d2.area * (d2.buildingFactor * d2.usageFactor) ≤ 0 :=
        mul_nonpos_of_nonneg_of_nonpos ha2 hf.le
      have e1 : max (1 : ℤ) ⌈d1.area * (d2.buildingFactor * d2.usageFactor) / BASE_COVERAGE⌉ = 1 := by
        refine max_eq_left (Int.ceil_le.mpr ?_)
        push_cast
        have : d1.area * (d2.buildingFactor * d2.usageFactor) / BASE_COVERAGE ≤ 0 :=
          div_nonpos_of_nonpos_of_nonneg hc1 (by norm_num [BASE_COVERAGE])
        linarith
      have e2 : max (1 : ℤ) ⌈d2.area * (d2.buildingFactor * d2.usageFactor) / BASE_COVERAGE⌉ = 1 := by
        refine max_eq_left (Int.ceil_le.mpr ?_)
        push_cast
        have : d2.area * (d2.buildingFactor * d2.usageFactor) / BASE_COVERAGE ≤ 0 :=
          div_nonpos_of_nonpos_of_nonneg hc2 (by norm_num [BASE_COVERAGE])
        linarith
      rw [e1, e2]
  · exact max_one_ceil_div_mono (by norm_num [SERVER_FACTOR_SQFT]) h12
  · exact max_one_ceil_div_mono (by norm_num [WORKSTATION_FACTOR_SQFT]) h12

theorem C3_witness :
    (calculateITNeeds
      { fullName := "A", phone := "1", area := 3000, buildingFactor := 1,
        usageFactor := 1, needsCabling := false, needsCCTV := false,
        needsAccessControl := false, needsTelephony := false,
        buildingType := "Office" }).accessPoints ≤
    (calculateITNeeds
      { fullName := "B", phone := "2", area := 9000, buildingFactor := 1,
        usageFactor := 1, needsCabling := false, needsCCTV := false,
        needsAccessControl := false, needsTelephony := false,
        buildingType := "Office" }).accessPoints ∧
    (calculateITNeeds
      { fullName := "A", phone := "1", area := 3000, buildingFactor := 1,
        usageFactor := 1, needsCabling := false, needsCCTV := false,
        needsAccessControl := false, needsTelephony := false,
        buildingType := "Office" }).recommendedServers ≤
    (calculateITNeeds
      { fullName := "B", phone := "2", area := 9000, buildingFactor := 1,
        usageFactor := 1, needsCabling := false, needsCCTV := false,
        needsAccessControl := false, needsTelephony := false,
        buildingType := "Office" }).recommendedServers ∧
    (calculateITNeeds
      { fullName := "A", phone := "1", area := 3000, buildingFactor := 1,
        usageFactor := 1, needsCabling := false, needsCCTV := false,
        needsAccessControl := false, needsTelephony := false,
        buildingType := "Office" }).recommendedWorkstations ≤
    (calculateITNeeds
      { fullName := "B", phone := "2", area := 9000, buildingFactor := 1,
        usageFactor := 1, needsCabling := false, needsCCTV := false,
        needsAccessControl := false, needsTelephony := false,
        buildingType := "Office" }).recommendedWorkstations :=
  C3_calculateITNeeds_monotone_in_area _ _ rfl rfl
    (by norm_num [MIN_AREA]) (by norm_num) (by norm_num [MAX_AREA])

/- Substring containment on character lists, embedding the JavaScript
String.prototype.includes used by filterPortfolioItems.  headMatches pat s
decides whether pat occurs at the start of s; hasSub pat s decides whether pat
occurs anywhere in s. -/

def headMatches : List Char → List Char → Bool
  | [], _ => true
  | _ :: _, [] => false
  | a :: as, b :: bs => a == b && headMatches as bs

def hasSub (pat : List Char) : List Char → Bool
  | [] => headMatches pat []
  | c :: rest => headMatches pat (c :: rest) || hasSub pat rest

def jsIncludes (s pat : String) : Bool :=
  hasSub pat.data s.data

/- A portfolio item: its data-category attribute string and the two style
properties that filterPortfolioItems writes. -/

structure PortfolioItem where
  category : String
  display : String
  animation : String
deriving DecidableEq, Repr

/- filterPortfolioItems, src/js/script.js lines 161-170.  The body of the
forEach loop is the per-item function; the shouldShow test of line 163 is the
strict comparison with "all" or the JavaScript substring test
item.dataset.category.includes(filter). -/

def filterPortfolioItem1 (filterTag : String) (item : PortfolioItem) : PortfolioItem :=
  let shouldShow := filterTag == "all" || jsIncludes item.category filterTag
  let item1 := { item with display := if shouldShow then "block" else "none" }
  if shouldShow then { item1 with animation := "fadeIn 0.3s ease-out" } else item1

def filterPortfolioItems (filterTag : String) (items : List PortfolioItem) : List PortfolioItem :=
  items.map (filterPortfolioItem1 filterTag)

theorem filterPortfolioItem1_display (filterTag : String) (it : PortfolioItem) :
    (filterPortfolioItem1 filterTag it).display =
      if (filterTag == "all" || jsIncludes it.category filterTag) then "block" else "none" := by
  unfold filterPortfolioItem1
  cases h : (filterTag == "all" || jsIncludes it.category filterTag) <;> simp [h]

theorem filterPortfolioItem1_category (filterTag : String) (it : PortfolioItem) :
    (filterPortfolioItem1 filterTag it).category = it.category := by
  unfold filterPortfolioItem1
  cases h : (filterTag == "all" || jsIncludes it.category filterTag) <;> simp [h]

/- Modelled from the spec: section 4.1 describes applyFilter as setting an
item visible iff the tag equals the reserved sentinel "all" or the item's own
category tag-set contains the tag.  The category attribute is a single string,
so its tag-set is read as its whitespace-separated tokens. -/

def splitTokensAux : List Char → List Char → List String
  | [], acc => [String.mk acc.reverse]
  | c :: rest, acc =>
    if c = ' ' then String.mk acc.reverse :: splitTokensAux rest []
    else splitTokensAux rest (c :: acc)

def specTagSet (category : String) : List String :=
  splitTokensAux category.data []

def specApplyFilterVisible (tag category : String) : Bool :=
  tag == "all" || (specTagSet category).contains tag

/-- C8 counterexample: on an item whose category string is "webdesign" and the
tag "web", the code makes the item visible (substring match) although the
tag-set of the item, in any whitespace tokenisation, does not contain "web";
so visibility does not coincide with tag-set membership. -/
theorem C8_counterexample :
    (filterPortfolioItems "web"
        [{ category := "webdesign", display := "none", animation := "" }]).map
      PortfolioItem.display = ["block"] ∧
    specApplyFilterVisible "web" "webdesign" = false := by
  constructor <;> rfl

/-- C8 amended: filterPortfolioItems sets an item visible (display "block")
iff the tag equals "all" or the tag occurs as a substring of the item's
category string; it never fails, leaves every item's category unchanged, and
a tag matching no item yields zero visible items. -/
theorem C8_amended_filter_visibility (filterTag : String) (items : List PortfolioItem) :
    (filterPortfolioItems filterTag items).map PortfolioItem.display =
      items.map (fun it => if filterTag == "all" || jsIncludes it.category filterTag
        then "block" else "none") ∧
    (filterPortfolioItems filterTag items).map PortfolioItem.category =
      items.map PortfolioItem.category ∧
    ((∀ it ∈ items, filterTag ≠ "all" ∧ jsIncludes it.category filterTag = false) →
      (filterPortfolioItems filterTag items).filter
        (fun it => it.display == "block") = []) := by
  refine ⟨?_, ?_, ?_⟩
  · rw [filterPortfolioItems, List.map_map]
    exact List.map_congr_left fun it _ => filterPortfolioItem1_display filterTag it
  · rw [filterPortfolioItems, List.map_map]
    exact List.map_congr_left fun it _ => filterPortfolioItem1_category filterTag it
  · intro hnone
    rw [List.filter_eq_nil_iff]
    intro a ha
    rw [filterPortfolioItems, List.mem_map] at ha
    obtain ⟨it, hit, rfl⟩ := ha
    obtain ⟨hne, hinc⟩ := hnone it hit
    have hss : (filterTag == "all" || jsIncludes it.category filterTag) = false := by
      rw [hinc, Bool.or_false, beq_eq_false_iff_ne]
      exact hne
    simp [filterPortfolioItem1_display, hss]

theorem C8_amended_witness :
    (filterPortfolioItems "app"
        [{ category := "web", display := "block", animation := "" },
         { category := "networking", display := "block", animation := "" }]).filter
      (fun it => it.display == "block") = [] :=
  (C8_amended_filter_visibility "app"
    [{ category := "web", display := "block", animation := "" },
     { category := "networking", display := "block", animation := "" }]).2.2
    (by decide)

/- The wizard panels of the web development form (this.elements.step1 through
step4 in the constructor). -/

def panelIds : List String := ["step1", "step2", "step3", "step4"]

/- showStep, src/js/script.js lines 131-140, over a DOM state mapping element
ids to the presence of the hidden class (true = hidden): first the hidden
class is added to all four step panels, then it is removed from the element
whose id is the target.  All elements the function touches are assumed
present in the document (the optional chaining of the source never takes its
null branch in this model). -/

def showStep (hidden : String → Bool) (stepId : String) : String → Bool :=
  fun elemId =>
    if elemId = stepId then false
    else if elemId ∈ panelIds then true
    else hidden elemId

/-- C4: for every target T in the fixed panel set and every prior visibility
state, showStep leaves exactly one panel of the panel set visible, namely T. -/
theorem C4_showStep_exactly_one_visible (hidden : String → Bool) (T : String)
    (hT : T ∈ panelIds) :
    panelIds.filter (fun p => !(showStep hidden T p)) = [T] := by
  simp only [panelIds, List.mem_cons, List.not_mem_nil, or_false] at hT
  rcases hT with rfl | rfl | rfl | rfl <;> rfl

theorem C4_witness :
    panelIds.filter (fun p => !(showStep (fun _ => false) "step3" p)) = ["step3"] :=
  C4_showStep_exactly_one_visible (fun _ => false) "step3" (by decide)

/-- C9 counterexample: with every element hidden, invoking showStep with the
target identifier "thankYouMessage" removes the hidden class from the
thank-you panel, so its visibility is not left unchanged for every target. -/
theorem C9_counterexample :
    showStep (fun _ => true) "thankYouMessage" "thankYouMessage" = false ∧
    (fun (_ : String) => true) "thankYouMessage" = true :=
  ⟨rfl, rfl⟩

/-- C9 amended: for every target other than "thankYouMessage" itself, showStep
leaves the visibility of the thank-you panel unchanged; every element outside
the four step panels and the target is untouched; and for every target
whatsoever, showStep never hides a visible thank-you panel, so once shown it
stays shown across panel navigation. -/
theorem C9_amended_showStep_frame (hidden : String → Bool) (T : String) :
    (T ≠ "thankYouMessage" →
      showStep hidden T "thankYouMessage" = hidden "thankYouMessage") ∧
    (∀ e, e ∉ panelIds → e ≠ T → showStep hidden T e = hidden e) ∧
    (hidden "thankYouMessage" = false →
      showStep hidden T "thankYouMessage" = false) := by
  refine ⟨?_, ?_, ?_⟩
  · intro hT
    have h1 : "thankYouMessage" ≠ T := fun h => hT h.symm
    have h2 : "thankYouMessage" ∉ panelIds := by decide
    simp [showStep, h1, h2]
  · intro e he hneq
    have h1 : (e = T) = False := by simp [hneq]
    simp [showStep, h1, he]
  · intro hvis
    by_cases hT : "thankYouMessage" = T
    · simp [showStep, hT]
    · have h2 : ("thankYouMessage" ∈ panelIds) = False := by simp [panelIds]
      simp [showStep, hT, h2, hvis]

theorem C9_amended_witness :
    showStep (fun _ => false) "step1" "thankYouMessage" = false ∧
    showStep (fun _ => false) "step1" "estimateResult" = false ∧
    showStep (fun _ => true) "step2" "thankYouMessage" = true :=
  ⟨(C9_amended_showStep_frame (fun _ => false) "step1").2.2 rfl,
   (C9_amended_showStep_frame (fun _ => false) "step1").2.1 "estimateResult"
     (by decide) (by decide),
   (C9_amended_showStep_frame (fun _ => true) "step2").1 (by decide)⟩

/- The three regions toggled by toggleWebsiteFields (true = the element
carries the hidden class). -/

structure WebsiteFieldsState where
  problemsHidden : Bool
  benefitsHidden : Bool
  websiteUrlHidden : Bool
deriving DecidableEq, Repr

/- toggleWebsiteFields, src/js/script.js lines 322-326: classList.toggle with
a force argument sets the presence of the hidden class to that argument, so
the resulting state is a function of hasWebsite alone. -/

def toggleWebsiteFields (hasWebsite : Bool) (_s : WebsiteFieldsState) : WebsiteFieldsState :=
  { problemsHidden := !hasWebsite
    benefitsHidden := hasWebsite
    websiteUrlHidden := !hasWebsite }

/- The radio change listener (src/js/script.js lines 90-93) calls
toggleWebsiteFields with the comparison of the radio value against "yes". -/

def websiteRadioChange (value : String) (s : WebsiteFieldsState) : WebsiteFieldsState :=
  toggleWebsiteFields (value == "yes") s

/-- C7: after every invocation of the website-exists toggle, value "yes"
leaves the problems section and URL field visible and the benefits section
hidden, value "no" the reverse, and the problems and benefits sections are
never both visible at once. -/
theorem C7_toggleWebsiteFields (s : WebsiteFieldsState) (value : String) :
    (value = "yes" → websiteRadioChange value s =
      { problemsHidden := false, benefitsHidden := true, websiteUrlHidden := false }) ∧
    (value = "no" → websiteRadioChange value s =
      { problemsHidden := true, benefitsHidden := false, websiteUrlHidden := true }) ∧
    (∀ (b : Bool) (t : WebsiteFieldsState),
      ¬((toggleWebsiteFields b t).problemsHidden = false ∧
        (toggleWebsiteFields b t).benefitsHidden = false)) := by
  refine ⟨?_, ?_, ?_⟩
  · rintro rfl
    rfl
  · rintro rfl
    rfl
  · rintro b t ⟨hp, hb⟩
    cases b
    · exact Bool.noConfusion hp
    · exact Bool.noConfusion hb

theorem C7_witness :
    websiteRadioChange "yes"
      { problemsHidden := true, benefitsHidden := true, websiteUrlHidden := true } =
      { problemsHidden := false, benefitsHidden := true, websiteUrlHidden := false } ∧
    websiteRadioChange "no"
      { problemsHidden := false, benefitsHidden := true, websiteUrlHidden := false } =
      { problemsHidden := true, benefitsHidden := false, websiteUrlHidden := true } :=
  ⟨(C7_toggleWebsiteFields
      { problemsHidden := true, benefitsHidden := true, websiteUrlHidden := true }
      "yes").1 rfl,
   (C7_toggleWebsiteFields
      { problemsHidden := false, benefitsHidden := true, websiteUrlHidden := false }
      "no").2.1 rfl⟩

/- The custom validity message that validateAreaInput (src/js/script.js lines
175-189) installs on the area input for a numeric value.  A non-numeric value
(parseFloat NaN) receives the same first message; the embedding keeps to
numeric values, which is the case every claim concerns. -/

def areaValidityMessage (area : ℚ) : String :=
  if area < MIN_AREA then "Please enter an area of at least 100 sq. ft"
  else if MAX_AREA < area then "Maximum area is 100000 sq. ft"
  else ""

/- The IT assessment page state read by the two submit entry points.
areaValidity is the custom validity string currently installed on the area
input (empty = the input reports itself valid); nameValid and phoneValid are
the checkValidity results of the two contact fields, whose constraints live
in the markup outside this repository. -/

structure ITPage where
  area : ℚ
  areaValidity : String
  nameValid : Bool
  phoneValid : Bool
  fullName : String
  phone : String
  buildingFactor : ℚ
  usageFactor : ℚ
  needsCabling : Bool
  needsCCTV : Bool
  needsAccessControl : Bool
  needsTelephony : Bool
  buildingType : String
deriving DecidableEq, Repr

/- The input listener (src/js/script.js lines 78-81) runs validateAreaInput on
every input event, refreshing the custom validity from the current value. -/

def validateAreaInput (p : ITPage) : ITPage :=
  { p with areaValidity := areaValidityMessage p.area }

/- getITFormData, src/js/script.js lines 216-229. -/

def getITFormData (p : ITPage) : ITFormData :=
  { fullName := p.fullName
    phone := p.phone
    area := p.area
    buildingFactor := p.buildingFactor
    usageFactor := p.usageFactor
    needsCabling := p.needsCabling
    needsCCTV := p.needsCCTV
    needsAccessControl := p.needsAccessControl
    needsTelephony := p.needsTelephony
    buildingType := p.buildingType }

/- Externally visible effects of the handlers, in the order the source emits
them.  displayITResults and sendITAssessment carry the data they render: the
message text built by sendITAssessmentToWhatsApp interpolates
toLocaleString output, which depends on the runtime locale, so that dispatch
is modelled as an effect carrying the form data and the computed results
rather than a closed string.  openWhatsApp carries the message text handed to
the wa.me deep link (the percent-encoding and the window.open of the source
are part of the effect). -/

inductive Effect where
  | reportValidity (fieldId : String)
  | errorToast (msg : String)
  | displayITResults (fd : ITFormData) (r : ITResults)
  | trackEvent (eventName eventLabel : String)
  | sendITAssessment (fd : ITFormData) (r : ITResults)
  | openWhatsApp (text : String)
  | scrollIntoView (elementId : String)
deriving DecidableEq, Repr

/- handleServiceFormSubmit, src/js/script.js lines 191-214: the area input is
checked first; then the two contact fields; only then is the estimate
computed, displayed and tracked. -/

def handleServiceFormSubmit (p : ITPage) : List Effect :=
  if p.areaValidity ≠ "" then [Effect.reportValidity "area"]
  else if !p.nameValid || !p.phoneValid then
    [Effect.errorToast "Please provide your name and phone number"]
  else
    let fd := getITFormData p
    [Effect.displayITResults fd (calculateITNeeds fd),
     Effect.trackEvent "it_assessment_submission" "IT Infrastructure Assessment"]

/- handleITCTA, src/js/script.js lines 300-317: only the two contact fields
are checked; the area input validity is never consulted before
calculateITNeeds runs and the assessment is forwarded. -/

def handleITCTA (p : ITPage) : List Effect :=
  if !p.nameValid || !p.phoneValid then
    [Effect.errorToast "Please provide your name and phone number"]
  else
    let fd := getITFormData p
    [Effect.sendITAssessment fd (calculateITNeeds fd)]

/-- C2: at area 50, below MIN_AREA and carrying a non-empty custom validity
message, the form submit path aborts with the native validation report, but
the CTA path still invokes calculateITNeeds on the out-of-range area and
forwards the result, with no validation error: the code contradicts the
claim on the handleITCTA entry point. -/
theorem C2_handleITCTA_skips_area_validation :
    (areaValidityMessage 50 ≠ "" ∧ (50 : ℚ) < MIN_AREA) ∧
    handleServiceFormSubmit
      { area := 50, areaValidity := areaValidityMessage 50, nameValid := true,
        phoneValid := true, fullName := "Jo", phone := "0700000000",
        buildingFactor := 1, usageFactor := 1, needsCabling := false,
        needsCCTV := false, needsAccessControl := false, needsTelephony := false,
        buildingType := "Office" } = [Effect.reportValidity "area"] ∧
    handleITCTA
      { area := 50, areaValidity := areaValidityMessage 50, nameValid := true,
        phoneValid := true, fullName := "Jo", phone := "0700000000",
        buildingFactor := 1, usageFactor := 1, needsCabling := false,
        needsCCTV := false, needsAccessControl := false, needsTelephony := false,
        buildingType := "Office" } =
      [Effect.sendITAssessment
        (getITFormData
          { area := 50, areaValidity := areaValidityMessage 50, nameValid := true,
            phoneValid := true, fullName := "Jo", phone := "0700000000",
            buildingFactor := 1, usageFactor := 1, needsCabling := false,
            needsCCTV := false, needsAccessControl := false, needsTelephony := false,
            buildingType := "Office" })
        (calculateITNeeds (getITFormData
          { area := 50, areaValidity := areaValidityMessage 50, nameValid := true,
            phoneValid := true, fullName := "Jo", phone := "0700000000",
            buildingFactor := 1, usageFactor := 1, needsCabling := false,
            needsCCTV := false, needsAccessControl := false, needsTelephony := false,
            buildingType := "Office" }))] := by
  refine ⟨⟨?_, ?_⟩, ?_, ?_⟩
  · decide
  · norm_num [MIN_AREA]
  · decide
  · rfl

/- The record produced by getWebDevFormData, src/js/script.js lines 348-360. -/

structure WebDevFormData where
  fullName : String
  phone : String
  hasWebsite : String
  websiteUrl : String
  projectType : String
  primaryGoal : String
  timeline : String
  problems : List String
  benefits : List String
deriving DecidableEq, Repr

/- The web development page state: the honeypot input value, the hidden flags
of the wizard panels and the thank-you panel, the scalar form fields, and the
two checkbox sections.  A section is a list of checkboxes in document order,
each a pair of its label text and its checked flag. -/

structure WebDevPage where
  honeypot : String
  step1Hidden : Bool
  step2Hidden : Bool
  step3Hidden : Bool
  step4Hidden : Bool
  thankYouHidden : Bool
  fullName : String
  phone : String
  hasWebsite : String
  websiteUrl : String
  projectType : String
  primaryGoal : String
  timeline : String
  problemsDoc : List (String × Bool)
  benefitsDoc : List (String × Bool)
deriving DecidableEq, Repr

/- getSelectedProblems and getSelectedBenefits, src/js/script.js lines
362-370: the checked checkboxes of the section in document order, mapped to
their label texts. -/

def getSelectedProblems (doc : List (String × Bool)) : List String :=
  (doc.filter fun cb => cb.2).map Prod.fst

def getSelectedBenefits (doc : List (String × Bool)) : List String :=
  (doc.filter fun cb => cb.2).map Prod.fst

def getWebDevFormData (p : WebDevPage) : WebDevFormData :=
  { fullName := p.fullName
    phone := p.phone
    hasWebsite := p.hasWebsite
    websiteUrl := p.websiteUrl
    projectType := p.projectType
    primaryGoal := p.primaryGoal
    timeline := p.timeline
    problems := getSelectedProblems p.problemsDoc
    benefits := getSelectedBenefits p.benefitsDoc }

/- The problem-card click handler (setupProblemCards, src/js/script.js lines
102-112) flips the checked flag of one checkbox. -/

def toggleProblemCard : List (String × Bool) → Nat → List (String × Bool)
  | [], _ => []
  | cb :: rest, 0 => (cb.1, !cb.2) :: rest
  | cb :: rest, n + 1 => cb :: toggleProblemCard rest n

/- The message built by sendWebDevToWhatsApp, src/js/script.js lines 381-416,
as the list of the template pieces appended to the message variable, in
source order.  The non-ASCII prefixes are written with escapes for exactly
the code points the source file holds. -/

def problemItemLine (i : Nat) (p : String) : String :=
  "\u00E2\u017E\u00A1\u00EF\u00B8 " ++ toString (i + 1) ++ ". " ++ p ++ "\n"

def benefitItemLine (i : Nat) (b : String) : String :=
  "\u00E2\u0153\u2026 " ++ toString (i + 1) ++ ". " ++ b ++ "\n"

def webDevHeaderSegs (fd : WebDevFormData) : List String :=
  ["*New Web Development Inquiry*\n\n",
   "\u00F0\u0178\u2018\u00A4 *Name:* " ++ fd.fullName ++ "\n",
   "\u00F0\u0178\u201C\u00B1 *Phone:* " ++ fd.phone ++ "\n",
   "\u00F0\u0178\u0152 *Has Website:* " ++
     (if fd.hasWebsite = "yes" then "Yes" else "No") ++ "\n"] ++
  (if fd.hasWebsite = "yes" ∧ fd.websiteUrl ≠ "" then
     ["\u00F0\u0178\u201D\u2014 *Website URL:* " ++ fd.websiteUrl ++ "\n"]
   else []) ++
  ["\n*Project Details:*\n",
   "\u00F0\u0178\u203A\u00A0\u00EF\u00B8 *Project Type:* " ++ fd.projectType ++ "\n",
   "\u00F0\u0178\u017D\u00AF *Primary Goal:* " ++ fd.primaryGoal ++ "\n",
   "\u00E2\u00B1\u00EF\u00B8 *Timeline:* " ++ fd.timeline ++ "\n"]

def problemsSegs (fd : WebDevFormData) : List String :=
  if fd.hasWebsite = "yes" ∧ fd.problems ≠ [] then
    "\n*Reported Problems:*\n" ::
      (fd.problems.enum.map fun ip => problemItemLine ip.1 ip.2)
  else []

def benefitsSegs (fd : WebDevFormData) : List String :=
  if fd.hasWebsite = "no" ∧ fd.benefits ≠ [] then
    "\n*Desired Benefits:*\n" ::
      (fd.benefits.enum.map fun ib => benefitItemLine ib.1 ib.2)
  else []

def webDevMessageSegs (fd : WebDevFormData) : List String :=
  webDevHeaderSegs fd ++ problemsSegs fd ++ benefitsSegs fd ++
    ["\n_Generated by Digital Solutions App_"]

def webDevMessage (fd : WebDevFormData) : String :=
  String.join (webDevMessageSegs fd)

/- handleWebDevSubmit, src/js/script.js lines 328-346: if the honeypot input
is non-empty the handler returns at once; otherwise it collects the form
data, hides step4, reveals and scrolls to the thank-you panel, opens the
WhatsApp hand-off with the assembled message, and tracks the submission. -/

def handleWebDevSubmit (p : WebDevPage) : WebDevPage × List Effect :=
  if p.honeypot ≠ "" then (p, [])
  else
    let fd := getWebDevFormData p
    ({ p with step4Hidden := true, thankYouHidden := false },
     [Effect.scrollIntoView "thankYouMessage",
      Effect.openWhatsApp (webDevMessage fd),
      Effect.trackEvent "webdev_assessment_submission" "Web Development Assessment"])

/-- C5: a non-empty honeypot value makes handleWebDevSubmit return with the
page state unchanged and an empty effect trace: no panel visibility change,
no thank-you reveal, no WhatsApp hand-off, no analytics event, no error. -/
theorem C5_honeypot_zero_side_effects (p : WebDevPage) (h : p.honeypot ≠ "") :
    handleWebDevSubmit p = (p, []) := by
  rw [handleWebDevSubmit, if_pos h]

theorem C5_witness :
    handleWebDevSubmit
      { honeypot := "spam-bot", step1Hidden := true, step2Hidden := true,
        step3Hidden := true, step4Hidden := false, thankYouHidden := true,
        fullName := "Ann", phone := "0711111111", hasWebsite := "yes",
        websiteUrl := "https://example.com", projectType := "Business Website",
        primaryGoal := "Generate leads", timeline := "ASAP",
        problemsDoc := [("Slow loading", true)], benefitsDoc := [] } =
    ({ honeypot := "spam-bot", step1Hidden := true, step2Hidden := true,
        step3Hidden := true, step4Hidden := false, thankYouHidden := true,
        fullName := "Ann", phone := "0711111111", hasWebsite := "yes",
        websiteUrl := "https://example.com", projectType := "Business Website",
        primaryGoal := "Generate leads", timeline := "ASAP",
        problemsDoc := [("Slow loading", true)], benefitsDoc := [] }, []) :=
  C5_honeypot_zero_side_effects _ (by decide)

/-- C6 counterexample: a benefit checkbox can be checked while the
website-exists answer is "yes" (checkboxes keep their state when their
section is hidden), and then its label is selected at submit time yet occurs
zero times, not once, in the assembled outbound message, because
sendWebDevToWhatsApp only includes benefits when hasWebsite is "no". -/
theorem C6_counterexample :
    getSelectedBenefits [("More sales", true)] = ["More sales"] ∧
    hasSub "More sales".data
      (webDevMessage (getWebDevFormData
        { honeypot := "", step1Hidden := true, step2Hidden := true,
          step3Hidden := true, step4Hidden := false, thankYouHidden := true,
          fullName := "Ann", phone := "0711", hasWebsite := "yes",
          websiteUrl := "", projectType := "Business", primaryGoal := "Leads",
          timeline := "ASAP", problemsDoc := [],
          benefitsDoc := [("More sales", true)] })).data = false := by
  constructor
  · rfl
  · decide

/- Shared helpers for the amended C6 statement. -/

theorem getSelectedBenefits_eq_getSelectedProblems (doc : List (String × Bool)) :
    getSelectedBenefits doc = getSelectedProblems doc := rfl

theorem getSelectedProblems_count (doc : List (String × Bool))
    (hnd : (doc.map Prod.fst).Nodup) (l : String) :
    (getSelectedProblems doc).count l = if (l, true) ∈ doc then 1 else 0 := by
  induction doc with
  | nil => simp [getSelectedProblems]
  | cons hd tl ih =>
    obtain ⟨a, c⟩ := hd
    rw [List.map_cons, List.nodup_cons] at hnd
    obtain ⟨hna, hnd2⟩ := hnd
    cases c with
    | false =>
      have hsel : getSelectedProblems ((a, false) :: tl) = getSelectedProblems tl := by
        simp [getSelectedProblems]
      have hmem : ((l, true) ∈ (a, false) :: tl) ↔ ((l, true) ∈ tl) := by
        simp [List.mem_cons]
      rw [hsel, ih hnd2, if_congr hmem rfl rfl]
    | true =>
      have hsel : getSelectedProblems ((a, true) :: tl) = a :: getSelectedProblems tl := by
        simp [getSelectedProblems]
      rw [hsel]
      by_cases hla : l = a
      · subst hla
        have hnotin : (l, true) ∉ tl := fun h => hna (List.mem_map_of_mem Prod.fst h)
        have hmem : (l, true) ∈ (l, true) :: tl := List.mem_cons_self _ _
        rw [List.count_cons_self, ih hnd2, if_neg hnotin, if_pos hmem]
      · have hmem : ((l, true) ∈ (a, true) :: tl) ↔ ((l, true) ∈ tl) := by
          simp [List.mem_cons, hla]
        rw [List.count_cons_of_ne hla, ih hnd2, if_congr hmem rfl rfl]

theorem getSelectedProblems_sublist (doc : List (String × Bool)) :
    List.Sublist (getSelectedProblems doc) (doc.map Prod.fst) :=
  List.Sublist.map Prod.fst (List.filter_sublist doc)

theorem toggleProblemCard_involutive (doc : List (String × Bool)) (i : Nat) :
    toggleProblemCard (toggleProblemCard doc i) i = doc := by
  induction doc generalizing i with
  | nil => cases i <;> rfl
  | cons cb rest ih =>
    cases i with
    | zero => simp [toggleProblemCard, Bool.not_not]
    | succ n => simp [toggleProblemCard, ih]

/-- C6 amended: the itemised block of the assembled outbound message lists
exactly the selected labels of the section matching the hasWebsite answer
(problems when "yes", benefits when "no"), one numbered line per label in
document order; with distinct labels every checked label of that section is
counted exactly once and an unchecked label zero times; the selection is an
order-preserving sublist of the document labels; and toggling a checkbox is
an involution, so repeated toggling before submit cannot accumulate
duplicates.  Selected labels of the section not matching the hasWebsite
answer are omitted from the message. -/
theorem C6_amended_message_labels (p : WebDevPage)
    (hpn : (p.problemsDoc.map Prod.fst).Nodup)
    (hbn : (p.benefitsDoc.map Prod.fst).Nodup) :
    (p.hasWebsite = "yes" →
      problemsSegs (getWebDevFormData p) =
        (if getSelectedProblems p.problemsDoc = [] then []
         else "\n*Reported Problems:*\n" ::
           ((getSelectedProblems p.problemsDoc).enum.map
             fun ip => problemItemLine ip.1 ip.2)) ∧
      benefitsSegs (getWebDevFormData p) = []) ∧
    (p.hasWebsite = "no" →
      benefitsSegs (getWebDevFormData p) =
        (if getSelectedBenefits p.benefitsDoc = [] then []
         else "\n*Desired Benefits:*\n" ::
           ((getSelectedBenefits p.benefitsDoc).enum.map
             fun ib => benefitItemLine ib.1 ib.2)) ∧
      problemsSegs (getWebDevFormData p) = []) ∧
    (∀ l : String, (getSelectedProblems p.problemsDoc).count l =
      if (l, true) ∈ p.problemsDoc then 1 else 0) ∧
    (∀ l : String, (getSelectedBenefits p.benefitsDoc).count l =
      if (l, true) ∈ p.benefitsDoc then 1 else 0) ∧
    List.Sublist (getSelectedProblems p.problemsDoc) (p.problemsDoc.map Prod.fst) ∧
    List.Sublist (getSelectedBenefits p.benefitsDoc) (p.benefitsDoc.map Prod.fst) ∧
    (∀ i, toggleProblemCard (toggleProblemCard p.problemsDoc i) i = p.problemsDoc) ∧
    (∀ i, toggleProblemCard (toggleProblemCard p.benefitsDoc i) i = p.benefitsDoc) := by
  have hyn : ("yes" : String) ≠ "no" := by decide
  refine ⟨?_, ?_, ?_, ?_, ?_, ?_, ?_, ?_⟩
  · intro hyes
    constructor
    · by_cases hempty : getSelectedProblems p.problemsDoc = [] <;>
        simp [problemsSegs, getWebDevFormData, hyes, hempty]
    · simp [benefitsSegs, getWebDevFormData, hyes, hyn]
  · intro hno
    constructor
    · by_cases hempty : getSelectedBenefits p.benefitsDoc = [] <;>
        simp [benefitsSegs, getWebDevFormData, hno, hempty,
          getSelectedBenefits_eq_getSelectedProblems]
    · have hny : p.hasWebsite ≠ "yes" := by rw [hno]; exact fun h => hyn h.symm
      simp [problemsSegs, getWebDevFormData, hny]
  · exact getSelectedProblems_count p.problemsDoc hpn
  · intro l
    rw [getSelectedBenefits_eq_getSelectedProblems]
    exact getSelectedProblems_count p.benefitsDoc hbn l
  · exact getSelectedProblems_sublist p.problemsDoc
  · rw [getSelectedBenefits_eq_getSelectedProblems]
    exact getSelectedProblems_sublist p.benefitsDoc
  · exact toggleProblemCard_involutive p.problemsDoc
  · exact toggleProblemCard_involutive p.benefitsDoc

theorem C6_amended_witness :
    (problemsSegs (getWebDevFormData
      { honeypot := "", step1Hidden := true, step2Hidden := true,
        step3Hidden := true, step4Hidden := false, thankYouHidden := true,
        fullName := "Ann", phone := "0711", hasWebsite := "yes",
        websiteUrl := "https://example.com", projectType := "Business",
        primaryGoal := "Leads", timeline := "ASAP",
        problemsDoc := [("Slow loading", true), ("Outdated design", false),
          ("No mobile support", true)],
        benefitsDoc := [("More sales", true)] }) =
      (if getSelectedProblems [("Slow loading", true), ("Outdated design", false),
          ("No mobile support", true)] = [] then []
       else "\n*Reported Problems:*\n" ::
         ((getSelectedProblems [("Slow loading", true), ("Outdated design", false),
            ("No mobile support", true)]).enum.map
           fun ip => problemItemLine ip.1 ip.2)) ∧
     benefitsSegs (getWebDevFormData
      { honeypot := "", step1Hidden := true, step2Hidden := true,
        step3Hidden := true, step4Hidden := false, thankYouHidden := true,
        fullName := "Ann", phone := "0711", hasWebsite := "yes",
        websiteUrl := "https://example.com", projectType := "Business",
        primaryGoal := "Leads", timeline := "ASAP",
        problemsDoc := [("Slow loading", true), ("Outdated design", false),
          ("No mobile support", true)],
        benefitsDoc := [("More sales", true)] }) = []) ∧
    (getSelectedProblems [("Slow loading", true), ("Outdated design", false),
        ("No mobile support", true)]).count "Slow loading" =
      (if ("Slow loading", true) ∈ [("Slow loading", true), ("Outdated design", false),
        ("No mobile support", true)] then 1 else 0) :=
  ⟨(C6_amended_message_labels
      { honeypot := "", step1Hidden := true, step2Hidden := true,
        step3Hidden := true, step4Hidden := false, thankYouHidden := true,
        fullName := "Ann", phone := "0711", hasWebsite := "yes",
        websiteUrl := "https://example.com", projectType := "Business",
        primaryGoal := "Leads", timeline := "ASAP",
        problemsDoc := [("Slow loading", true), ("Outdated design", false),
          ("No mobile support", true)],
        benefitsDoc := [("More sales", true)] } (by decide) (by decide)).1 rfl,
   ((C6_amended_message_labels
      { honeypot := "", step1Hidden := true, step2Hidden := true,
        step3Hidden := true, step4Hidden := false, thankYouHidden := true,
        fullName := "Ann", phone := "0711", hasWebsite := "yes",
        websiteUrl := "https://example.com", projectType := "Business",
        primaryGoal := "Leads", timeline := "ASAP",
        problemsDoc := [("Slow loading", true), ("Outdated design", false),
          ("No mobile support", true)],
        benefitsDoc := [("More sales", true)] } (by decide) (by decide)).2.2.1
     "Slow loading")⟩
